import Mathlib

/-!
Shallow embedding of `src/utils/aws/profile-utils.ts`.

The module has four functions:
* `isRemoteSSH` — inspects `vscode.env.remoteName` (a `string | undefined`,
  modelled as `Option String`);
* `doesAwsProfileExist` — reads `~/.aws/credentials` and `~/.aws/config` and
  tests substring containment of a bracketed section header;
* `showRemoteProfileError` — emits one warn-level log entry and one UI error
  notification;
* `getDetailedRemoteProfileErrorMessage` — a pure string template.

The filesystem is modelled as a map from paths to a per-file behaviour: whether
`fs.access` resolves, and whether `fs.readFile` resolves with a content string
or rejects with an error message.  Promise rejection is modelled with
`Except String`; side effects (paths passed to `fs.access`, paths passed to
`fs.readFile`, log entries, UI notifications) are collected in explicit effect
records, listed in chronological order.
-/

set_option maxRecDepth 4096

/-- JS `String.prototype.startsWith` restricted to char lists: `pat` is a
prefix of `s`. -/
def listIsPrefix : List Char → List Char → Bool
  | [], _ => true
  | _ :: _, [] => false
  | a :: as, b :: bs => a == b && listIsPrefix as bs

/-- JS `String.prototype.includes` on char lists: `pat` occurs contiguously
somewhere in `s`. -/
def listIncludes (pat : List Char) : List Char → Bool
  | [] => listIsPrefix pat []
  | s@(_ :: t) => listIsPrefix pat s || listIncludes pat t

/-- JS `content.includes(pat)`: `pat` is a contiguous substring of `s`. -/
def strIncludes (s pat : String) : Bool :=
  listIncludes pat.data s.data

/-- Node `path.join` of two segments (POSIX separator; the claims only depend
on the two computed paths being distinct strings). -/
def pathJoin (a b : String) : String :=
  a ++ "/" ++ b

/-- Outcome of `fs.readFile`: resolves with text, or rejects with an error
message. -/
inductive ReadOutcome where
  | ok (content : String)
  | err (msg : String)
deriving DecidableEq

/-- Behaviour of one file: does `fs.access` resolve, and what does
`fs.readFile` do. -/
structure FileBehavior where
  accessOk : Bool
  read : ReadOutcome
deriving DecidableEq

/-- Ambient state: `os.homedir()` and the behaviour of every path. -/
structure FsState where
  homedir : String
  files : String → FileBehavior

/-- Severity levels of the `logger` sink. -/
inductive LogLevel where
  | debug
  | warn
  | error
deriving DecidableEq

/-- The structured context object passed to the logger: the fields this module
ever sets (`ctx`, `profile`, `error`, `isRemoteSSH`). -/
structure LogCtx where
  ctx : String
  profile : Option String
  error : Option String
  isRemoteSSH : Option Bool
deriving DecidableEq

/-- One call to the logger. -/
structure LogEntry where
  level : LogLevel
  message : String
  context : LogCtx
deriving DecidableEq

/-- Effects accumulated by `doesAwsProfileExist`, in chronological order:
paths passed to `fs.access`, paths passed to `fs.readFile`, log entries. -/
structure Effects where
  accesses : List String
  reads : List String
  logs : List LogEntry
deriving DecidableEq

/-- Sequential composition of effect records. -/
def Effects.append (e₁ e₂ : Effects) : Effects :=
  ⟨e₁.accesses ++ e₂.accesses, e₁.reads ++ e₂.reads, e₁.logs ++ e₂.logs⟩

/-- `fs.access(filePath)`: resolves iff the behaviour says the file is
accessible. -/
def fsAccess (fs : FsState) (filePath : String) : Except String Unit :=
  if (fs.files filePath).accessOk then Except.ok () else Except.error "EACCES"

/-- `fs.readFile(filePath, "utf8")`: resolves with the content or rejects. -/
def fsReadFile (fs : FsState) (filePath : String) : Except String String :=
  match (fs.files filePath).read with
  | ReadOutcome.ok content => Except.ok content
  | ReadOutcome.err msg => Except.error msg

/-- `fileExists` from the source: `try { await fs.access(filePath); return
true } catch { return false }` — any access error is swallowed silently, with
no logging. -/
def fileExists (fs : FsState) (filePath : String) : Bool :=
  match fsAccess fs filePath with
  | Except.ok _ => true
  | Except.error _ => false

/-- The path of `~/.aws/credentials` as computed in the source:
`path.join(os.homedir(), '.aws', 'credentials')`. -/
def credentialsPathOf (fs : FsState) : String :=
  pathJoin (pathJoin fs.homedir ".aws") "credentials"

/-- The path of `~/.aws/config` as computed in the source:
`path.join(os.homedir(), '.aws', 'config')`. -/
def configPathOf (fs : FsState) : String :=
  pathJoin (pathJoin fs.homedir ".aws") "config"

/-- One of the two identical inner `try { if (await fileExists(p)) { const
content = await fs.readFile(p, 'utf8'); if (content.includes(marker)) return
true } } catch (error) { logger.debug(logMsg, { ctx: "aws-profile", error })
}` blocks of `doesAwsProfileExist`, parametrised by the path, the marker and
the debug-log message (the only three points where the two blocks differ).
Returns whether the marker was found, together with the effects.  The inner
catch converts a `readFile` rejection into a debug log entry and falls
through. -/
def checkAwsFile (fs : FsState) (filePath marker logMsg : String) :
    Bool × Effects :=
  if fileExists fs filePath then
    match fsReadFile fs filePath with
    | Except.ok content =>
        (strIncludes content marker, ⟨[filePath], [filePath], []⟩)
    | Except.error msg =>
        (false,
         ⟨[filePath], [filePath],
          [⟨LogLevel.debug, logMsg, ⟨"aws-profile", none, some msg, none⟩⟩]⟩)
  else
    (false, ⟨[filePath], [], []⟩)

/-- The body of the top-level `try` of `doesAwsProfileExist`: check the
credentials file for `[<profile>]`; on a hit return true at once (the config
path is never even computed); otherwise check the config file for
`[profile <profile>]`; otherwise return false.  The result is
`Except`-valued so that the enclosing top-level `catch` can be represented
faithfully. -/
def doesAwsProfileExistBody (fs : FsState) (profile : String) :
    Except String Bool × Effects :=
  let credentialsPath := credentialsPathOf fs
  let credCheck :=
    checkAwsFile fs credentialsPath ("[" ++ profile ++ "]")
      "Error checking AWS credentials file"
  if credCheck.1 then
    (Except.ok true, credCheck.2)
  else
    let configPath := configPathOf fs
    let configCheck :=
      checkAwsFile fs configPath ("[profile " ++ profile ++ "]")
        "Error checking AWS config file"
    if configCheck.1 then
      (Except.ok true, Effects.append credCheck.2 configCheck.2)
    else
      (Except.ok false, Effects.append credCheck.2 configCheck.2)

/-- `doesAwsProfileExist` from the source: the body wrapped in the top-level
`catch (error) { logger.error("Error checking for AWS profile existence",
{ ctx: "aws-profile", profile, error }); return false }`.  A rejected promise
would be `Except.error`; the catch turns any body error into a resolved
`false` plus an error-level log entry. -/
def doesAwsProfileExist (fs : FsState) (profile : String) :
    Except String Bool × Effects :=
  match doesAwsProfileExistBody fs profile with
  | (Except.ok b, eff) => (Except.ok b, eff)
  | (Except.error msg, eff) =>
      (Except.ok false,
       ⟨eff.accesses, eff.reads,
        eff.logs ++
          [⟨LogLevel.error, "Error checking for AWS profile existence",
            ⟨"aws-profile", some profile, some msg, none⟩⟩]⟩)

/-- `isRemoteSSH` from the source: `vscode.env.remoteName !== undefined &&
vscode.env.remoteName === 'ssh-remote'`. -/
def isRemoteSSH (remoteName : Option String) : Bool :=
  let isRemote := !(remoteName == none)
  let isSSH := remoteName == some "ssh-remote"
  isRemote && isSSH

/-- Effects of the notifier: log entries and UI error notifications
(`vscode.window.showErrorMessage`), in order. -/
structure NotifierEffects where
  logs : List LogEntry
  notifications : List String
deriving DecidableEq

/-- `showRemoteProfileError` from the source: builds the message, emits one
`logger.warn` call with context `{ ctx: "bedrock", profile,
isRemoteSSH: true }`, then one `vscode.window.showErrorMessage` call with the
same text. -/
def showRemoteProfileError (profile : String) : NotifierEffects :=
  let errorMessage :=
    "AWS Profile \"" ++ profile ++ "\" not found in the remote SSH host. " ++
    "When using VS Code with remote SSH, AWS profiles must exist on the remote machine. " ++
    "Please either create the profile on the remote machine or use direct AWS credentials instead."
  ⟨[⟨LogLevel.warn, errorMessage, ⟨"bedrock", some profile, none, some true⟩⟩],
   [errorMessage]⟩

/-- `getDetailedRemoteProfileErrorMessage` from the source: a pure template
literal (the second line of the literal is six spaces, as in the source). -/
def getDetailedRemoteProfileErrorMessage (profile : String) : String :=
  "Error: Could not find AWS profile \"" ++ profile ++
  "\" on the remote SSH host.\n      \nWhen using VS Code with remote SSH, AWS profiles must exist on the remote machine.\n\nOptions to resolve this issue:\n1. Create the AWS profile on the remote machine\n2. Switch to using direct AWS credentials instead of a profile\n3. Copy your AWS credentials from your local machine to the remote machine"

/-- Spec-side definition (from the spec's words, for the refinement claim C1):
a file named by `filePath` "is accessible and readable and its content
contains the literal substring `marker`". -/
def fileHasMarker (fs : FsState) (filePath marker : String) : Bool :=
  (fs.files filePath).accessOk &&
    match (fs.files filePath).read with
    | ReadOutcome.ok content => strIncludes content marker
    | ReadOutcome.err _ => false

/-- Spec-side definition (from the spec's words, for the refinement claim C1):
the profile exists iff the credentials file is accessible, readable and
contains `[<profile>]`, or the config file is accessible, readable and
contains `[profile <profile>]`. -/
def specProfileExists (fs : FsState) (profile : String) : Bool :=
  fileHasMarker fs (credentialsPathOf fs) ("[" ++ profile ++ "]") ||
  fileHasMarker fs (configPathOf fs) ("[profile " ++ profile ++ "]")

/-! ### Helper lemmas about substring containment and paths -/

theorem listIsPrefix_append_left (l a b : List Char) :
    listIsPrefix (l ++ a) (l ++ b) = listIsPrefix a b := by
  induction l with
  | nil => rfl
  | cons c cs ih => simp [listIsPrefix, ih]

theorem listIsPrefix_self_append (l t : List Char) :
    listIsPrefix l (l ++ t) = true := by
  induction l with
  | nil => rfl
  | cons c cs ih => simp [listIsPrefix, ih]

theorem listIncludes_of_isPre (pat s : List Char)
    (h : listIsPrefix pat s = true) : listIncludes pat s = true := by
  cases s with
  | nil => simpa [listIncludes] using h
  | cons c t => simp [listIncludes, h]

theorem listIncludes_append_left (pat x t : List Char)
    (h : listIncludes pat t = true) : listIncludes pat (x ++ t) = true := by
  induction x with
  | nil => simpa using h
  | cons c cs ih => simp [listIncludes, ih]

theorem listIncludes_pattern0 (l m c t : List Char)
    (h : listIsPrefix c t = true) :
    listIncludes (l ++ (m ++ c)) (l ++ (m ++ t)) = true := by
  apply listIncludes_of_isPre
  rw [listIsPrefix_append_left, listIsPrefix_append_left]
  exact h

theorem listIncludes_pattern (x l m c t : List Char)
    (h : listIsPrefix c t = true) :
    listIncludes (l ++ (m ++ c)) (x ++ (l ++ (m ++ t))) = true :=
  listIncludes_append_left _ _ _ (listIncludes_pattern0 l m c t h)

theorem listIncludes_pattern_split (x l m c t e : List Char)
    (he : e = x ++ l) (h : listIsPrefix c t = true) :
    listIncludes (l ++ (m ++ c)) (e ++ (m ++ t)) = true := by
  subst he
  rw [List.append_assoc]
  exact listIncludes_pattern x l m c t h

theorem listIncludes_self_mid (pat x y : List Char) :
    listIncludes pat (x ++ (pat ++ y)) = true :=
  listIncludes_append_left _ _ _
    (listIncludes_of_isPre _ _ (listIsPrefix_self_append pat y))

theorem listIncludes_in_tail (pat x y t : List Char)
    (h : listIncludes pat t = true) :
    listIncludes pat (x ++ (y ++ t)) = true :=
  listIncludes_append_left _ _ _ (listIncludes_append_left _ _ _ h)

theorem pathJoin_credentials_ne_config (h : String) :
    pathJoin (pathJoin h ".aws") "credentials" ≠
      pathJoin (pathJoin h ".aws") "config" := by
  intro heq
  have hd := congrArg String.data heq
  simp only [pathJoin, String.data_append, List.append_assoc] at hd
  have h2 := List.append_cancel_left hd
  revert h2
  decide

theorem credentialsPath_ne_configPath (fs : FsState) :
    credentialsPathOf fs ≠ configPathOf fs :=
  pathJoin_credentials_ne_config fs.homedir

/-! ### Claim theorems -/

/-- C3: `isRemoteSSH` returns true iff the ambient remote name is exactly
`"ssh-remote"`; it is false for `undefined` (`none`), the empty string, and
every other identifier such as a container or WSL identifier. -/
theorem isRemoteSSH_iff_sshRemote (v : Option String) :
    isRemoteSSH v = true ↔ v = some "ssh-remote" := by
  cases v with
  | none => simp [isRemoteSSH]
  | some s => simp [isRemoteSSH]

/-- C7: `getDetailedRemoteProfileErrorMessage` (a pure function, hence
trivially deterministic across repeated calls) always contains the exact
substrings `Could not find AWS profile "<p>"`, `Options to resolve this
issue`, and the three remediation phrases. -/
theorem getDetailedRemoteProfileErrorMessage_spec (p : String) :
    strIncludes (getDetailedRemoteProfileErrorMessage p)
      ("Could not find AWS profile \"" ++ p ++ "\"") = true ∧
    strIncludes (getDetailedRemoteProfileErrorMessage p)
      "Options to resolve this issue" = true ∧
    strIncludes (getDetailedRemoteProfileErrorMessage p)
      "Create the AWS profile on the remote machine" = true ∧
    strIncludes (getDetailedRemoteProfileErrorMessage p)
      "Switch to using direct AWS credentials instead of a profile" = true ∧
    strIncludes (getDetailedRemoteProfileErrorMessage p)
      "Copy your AWS credentials from your local machine to the remote machine"
      = true := by
  refine ⟨?_, ?_, ?_, ?_, ?_⟩ <;>
    simp only [strIncludes, getDetailedRemoteProfileErrorMessage,
      String.data_append, List.append_assoc]
  · apply listIncludes_pattern_split ("Error: " : String).data
    · decide
    · decide
  · apply listIncludes_in_tail
    decide
  · apply listIncludes_in_tail
    decide
  · apply listIncludes_in_tail
    decide
  · apply listIncludes_in_tail
    decide

/-- C8: `showRemoteProfileError` issues exactly one warn-level log call whose
message contains `AWS Profile "<p>" not found`, whose structured context is
`{ ctx: "bedrock", profile: p, isRemoteSSH: true }`, plus exactly one UI
error-notification call carrying the same message text, and nothing else. -/
theorem showRemoteProfileError_spec (p : String) :
    ∃ msg : String,
      showRemoteProfileError p =
        ⟨[⟨LogLevel.warn, msg, ⟨"bedrock", some p, none, some true⟩⟩],
         [msg]⟩ ∧
      strIncludes msg ("AWS Profile \"" ++ p ++ "\" not found") = true := by
  refine ⟨"AWS Profile \"" ++ p ++ "\" not found in the remote SSH host. " ++
    "When using VS Code with remote SSH, AWS profiles must exist on the remote machine. " ++
    "Please either create the profile on the remote machine or use direct AWS credentials instead.",
    rfl, ?_⟩
  simp only [strIncludes, String.data_append, List.append_assoc]
  apply listIncludes_pattern0
  decide

/-! ### Helper lemmas about `doesAwsProfileExist` -/

theorem checkAwsFile_fst (fs : FsState) (fp m l : String) :
    (checkAwsFile fs fp m l).1 = fileHasMarker fs fp m := by
  unfold checkAwsFile fileHasMarker fileExists fsAccess fsReadFile
  cases ha : (fs.files fp).accessOk <;>
    cases hr : (fs.files fp).read <;> simp [ha, hr]

theorem checkAwsFile_logs_debug (fs : FsState) (fp m l : String) :
    ((checkAwsFile fs fp m l).2.logs.all
      (fun e => !(e.level == LogLevel.error))) = true := by
  unfold checkAwsFile fileExists fsAccess fsReadFile
  cases ha : (fs.files fp).accessOk <;>
    cases hr : (fs.files fp).read <;> simp [ha, hr]

theorem doesAwsProfileExistBody_fst (fs : FsState) (p : String) :
    (doesAwsProfileExistBody fs p).1 = Except.ok (specProfileExists fs p) := by
  unfold doesAwsProfileExistBody specProfileExists
  rw [← checkAwsFile_fst fs (credentialsPathOf fs) ("[" ++ p ++ "]")
      "Error checking AWS credentials file",
    ← checkAwsFile_fst fs (configPathOf fs) ("[profile " ++ p ++ "]")
      "Error checking AWS config file"]
  cases h1 : (checkAwsFile fs (credentialsPathOf fs) ("[" ++ p ++ "]")
      "Error checking AWS credentials file").1
  · simp only [h1, Bool.false_eq_true, if_false, Bool.false_or]
    cases h2 : (checkAwsFile fs (configPathOf fs) ("[profile " ++ p ++ "]")
        "Error checking AWS config file").1 <;> simp [h2]
  · simp [h1]

theorem doesAwsProfileExist_eq_body (fs : FsState) (p : String) :
    doesAwsProfileExist fs p = doesAwsProfileExistBody fs p := by
  have h := doesAwsProfileExistBody_fst fs p
  unfold doesAwsProfileExist
  rcases hb : doesAwsProfileExistBody fs p with ⟨r, eff⟩
  rw [hb] at h
  simp only at h
  rw [h]

/-- C1: `doesAwsProfileExist` resolves true iff the credentials file is
accessible, readable and contains `[<profile>]`, or the config file is
accessible, readable and contains `[profile <profile>]`; in every other case
it resolves false.  (`specProfileExists` is the spec-side statement of that
disjunction.) -/
theorem doesAwsProfileExist_correct (fs : FsState) (p : String) :
    (doesAwsProfileExist fs p).1 = Except.ok (specProfileExists fs p) := by
  rw [doesAwsProfileExist_eq_body]
  exact doesAwsProfileExistBody_fst fs p

/-- C2: for every profile name and every behaviour of the filesystem
operations, `doesAwsProfileExist` resolves to some boolean (`Except.ok`); it
never rejects (`Except.error`). -/
theorem doesAwsProfileExist_never_rejects (fs : FsState) (p : String) :
    ∃ b : Bool, (doesAwsProfileExist fs p).1 = Except.ok b := by
  refine ⟨specProfileExists fs p, ?_⟩
  rw [doesAwsProfileExist_eq_body]
  exact doesAwsProfileExistBody_fst fs p

/-- C10: assuming only the filesystem operations can fail, the top-level
catch of `doesAwsProfileExist` is unreachable: no invocation ever emits an
error-severity log entry (every emitted entry is below error severity). -/
theorem doesAwsProfileExist_no_error_log (fs : FsState) (p : String) :
    ((doesAwsProfileExist fs p).2.logs.all
      (fun e => !(e.level == LogLevel.error))) = true := by
  rw [doesAwsProfileExist_eq_body]
  unfold doesAwsProfileExistBody
  simp only [Effects.append]
  have h1 := checkAwsFile_logs_debug fs (credentialsPathOf fs)
    ("[" ++ p ++ "]") "Error checking AWS credentials file"
  have h2 := checkAwsFile_logs_debug fs (configPathOf fs)
    ("[profile " ++ p ++ "]") "Error checking AWS config file"
  split
  · exact h1
  · split <;> simp [List.all_append, h1, h2]

theorem strIncludes_self_mid (x m y : String) :
    strIncludes (x ++ m ++ y) m = true := by
  unfold strIncludes
  have hd : (x ++ m ++ y).data = x.data ++ (m.data ++ y.data) := by
    simp [String.data_append]
  rw [hd]
  exact listIncludes_self_mid m.data x.data y.data

/-- C4: when the credentials file is accessible and its content contains
`[<profile>]`, `doesAwsProfileExist` resolves true having accessed and read
only the credentials file; the config file is never passed to `fs.access` or
`fs.readFile`. -/
theorem doesAwsProfileExist_shortCircuits (fs : FsState) (p c : String)
    (hacc : (fs.files (credentialsPathOf fs)).accessOk = true)
    (hread : (fs.files (credentialsPathOf fs)).read = ReadOutcome.ok c)
    (hmark : strIncludes c ("[" ++ p ++ "]") = true) :
    doesAwsProfileExist fs p =
      (Except.ok true,
       ⟨[credentialsPathOf fs], [credentialsPathOf fs], []⟩) ∧
    configPathOf fs ∉ (doesAwsProfileExist fs p).2.accesses ∧
    configPathOf fs ∉ (doesAwsProfileExist fs p).2.reads := by
  have hcred : checkAwsFile fs (credentialsPathOf fs) ("[" ++ p ++ "]")
      "Error checking AWS credentials file" =
      (true, ⟨[credentialsPathOf fs], [credentialsPathOf fs], []⟩) := by
    unfold checkAwsFile fileExists fsAccess fsReadFile
    simp [hacc, hread, hmark]
  have hres : doesAwsProfileExist fs p =
      (Except.ok true,
       ⟨[credentialsPathOf fs], [credentialsPathOf fs], []⟩) := by
    rw [doesAwsProfileExist_eq_body]
    unfold doesAwsProfileExistBody
    simp [hcred]
  have hne : configPathOf fs ≠ credentialsPathOf fs :=
    Ne.symm (credentialsPath_ne_configPath fs)
  refine ⟨hres, ?_, ?_⟩ <;> rw [hres] <;> simp [hne]

/-- Filesystem for the C4 witness (the spec's example): the credentials file
is readable with content `[default]\nkey=value`; every other path is
inaccessible. -/
def c4Fs : FsState :=
  ⟨"/mock/home", fun q =>
    if q == pathJoin (pathJoin "/mock/home" ".aws") "credentials" then
      ⟨true, ReadOutcome.ok "[default]\nkey=value"⟩
    else ⟨false, ReadOutcome.err "ENOENT"⟩⟩

/-- Witness for C4 at the spec's concrete example. -/
theorem doesAwsProfileExist_shortCircuits_witness :
    doesAwsProfileExist c4Fs "default" =
      (Except.ok true,
       ⟨[credentialsPathOf c4Fs], [credentialsPathOf c4Fs], []⟩) ∧
    configPathOf c4Fs ∉ (doesAwsProfileExist c4Fs "default").2.accesses ∧
    configPathOf c4Fs ∉ (doesAwsProfileExist c4Fs "default").2.reads :=
  doesAwsProfileExist_shortCircuits c4Fs "default" "[default]\nkey=value"
    (by decide) (by decide) (by decide)

/-- C5: a read error on the credentials file is caught, logged at debug
severity with the error message, and the check continues: with the config
file readable and containing `[profile <p>]` the function still resolves
true, its log consisting of exactly the one debug entry carrying the read
error's message. -/
theorem doesAwsProfileExist_readError_continues (fs : FsState) (p m c : String)
    (h1 : (fs.files (credentialsPathOf fs)).accessOk = true)
    (h2 : (fs.files (credentialsPathOf fs)).read = ReadOutcome.err m)
    (h3 : (fs.files (configPathOf fs)).accessOk = true)
    (h4 : (fs.files (configPathOf fs)).read = ReadOutcome.ok c)
    (h5 : strIncludes c ("[profile " ++ p ++ "]") = true) :
    doesAwsProfileExist fs p =
      (Except.ok true,
       ⟨[credentialsPathOf fs, configPathOf fs],
        [credentialsPathOf fs, configPathOf fs],
        [⟨LogLevel.debug, "Error checking AWS credentials file",
          ⟨"aws-profile", none, some m, none⟩⟩]⟩) := by
  have hcred : checkAwsFile fs (credentialsPathOf fs) ("[" ++ p ++ "]")
      "Error checking AWS credentials file" =
      (false,
       ⟨[credentialsPathOf fs], [credentialsPathOf fs],
        [⟨LogLevel.debug, "Error checking AWS credentials file",
          ⟨"aws-profile", none, some m, none⟩⟩]⟩) := by
    unfold checkAwsFile fileExists fsAccess fsReadFile
    simp [h1, h2]
  have hcfg : checkAwsFile fs (configPathOf fs) ("[profile " ++ p ++ "]")
      "Error checking AWS config file" =
      (true, ⟨[configPathOf fs], [configPathOf fs], []⟩) := by
    unfold checkAwsFile fileExists fsAccess fsReadFile
    simp [h3, h4, h5]
  rw [doesAwsProfileExist_eq_body]
  unfold doesAwsProfileExistBody
  simp [hcred, hcfg, Effects.append]

/-- Filesystem for the C5 witness: reading the credentials file fails with a
permission error; the config file is readable and names the profile. -/
def c5Fs : FsState :=
  ⟨"/mock/home", fun q =>
    if q == pathJoin (pathJoin "/mock/home" ".aws") "credentials" then
      ⟨true, ReadOutcome.err "Permission denied"⟩
    else if q == pathJoin (pathJoin "/mock/home" ".aws") "config" then
      ⟨true, ReadOutcome.ok "[profile default]\nregion=us-west-2"⟩
    else ⟨false, ReadOutcome.err "ENOENT"⟩⟩

/-- Witness for C5 at a concrete permission-denied input. -/
theorem doesAwsProfileExist_readError_continues_witness :
    doesAwsProfileExist c5Fs "default" =
      (Except.ok true,
       ⟨[credentialsPathOf c5Fs, configPathOf c5Fs],
        [credentialsPathOf c5Fs, configPathOf c5Fs],
        [⟨LogLevel.debug, "Error checking AWS credentials file",
          ⟨"aws-profile", none, some "Permission denied", none⟩⟩]⟩) :=
  doesAwsProfileExist_readError_continues c5Fs "default" "Permission denied"
    "[profile default]\nregion=us-west-2"
    (by decide) (by decide) (by decide) (by decide) (by decide)

/-- Filesystem for the C6 counterexample: every path is inaccessible
(`fs.access` rejects everywhere). -/
def c6Fs : FsState :=
  ⟨"/mock/home", fun _ => ⟨false, ReadOutcome.err "ENOENT"⟩⟩

/-- C6 counterexample: with both files failing the accessibility check,
`doesAwsProfileExist` resolves false and its log list is empty — no per-file
debug-level entry is recorded for the inaccessible files, contrary to the
claim.  (`fileExists` swallows the access error silently.) -/
theorem c6_counterexample :
    fileExists c6Fs (credentialsPathOf c6Fs) = false ∧
    fileExists c6Fs (configPathOf c6Fs) = false ∧
    doesAwsProfileExist c6Fs "default" =
      (Except.ok false,
       ⟨[credentialsPathOf c6Fs, configPathOf c6Fs], [], []⟩) := by
  refine ⟨rfl, rfl, ?_⟩
  rfl

/-- C6 (amended): when a checked file is absent or inaccessible the failure
is swallowed silently — no log entry is recorded for that file — and the
check falls through to "not found" for it without aborting: with the
credentials file inaccessible, the function still accesses the config file
and its result and effects are exactly those of the config-file check
(prefixed by the one credentials `fs.access` call), so its log contains
nothing about the credentials file. -/
theorem doesAwsProfileExist_inaccessible_silent (fs : FsState) (p : String)
    (h : (fs.files (credentialsPathOf fs)).accessOk = false) :
    doesAwsProfileExist fs p =
      (Except.ok (checkAwsFile fs (configPathOf fs) ("[profile " ++ p ++ "]")
          "Error checking AWS config file").1,
       ⟨credentialsPathOf fs ::
          (checkAwsFile fs (configPathOf fs) ("[profile " ++ p ++ "]")
            "Error checking AWS config file").2.accesses,
        (checkAwsFile fs (configPathOf fs) ("[profile " ++ p ++ "]")
          "Error checking AWS config file").2.reads,
        (checkAwsFile fs (configPathOf fs) ("[profile " ++ p ++ "]")
          "Error checking AWS config file").2.logs⟩) := by
  have hcred : checkAwsFile fs (credentialsPathOf fs) ("[" ++ p ++ "]")
      "Error checking AWS credentials file" =
      (false, ⟨[credentialsPathOf fs], [], []⟩) := by
    unfold checkAwsFile fileExists fsAccess
    simp [h]
  rw [doesAwsProfileExist_eq_body]
  unfold doesAwsProfileExistBody
  rcases hcfg : checkAwsFile fs (configPathOf fs) ("[profile " ++ p ++ "]")
      "Error checking AWS config file" with ⟨b, eff⟩
  simp only [hcred, hcfg, Effects.append]
  cases b <;> simp

/-- Filesystem for the C6 witness: the credentials file is inaccessible; the
config file is readable and names the profile. -/
def c6wFs : FsState :=
  ⟨"/mock/home", fun q =>
    if q == pathJoin (pathJoin "/mock/home" ".aws") "config" then
      ⟨true, ReadOutcome.ok "[profile default]\nregion=us-west-2"⟩
    else ⟨false, ReadOutcome.err "ENOENT"⟩⟩

/-- Witness for the amended C6 at a concrete input. -/
theorem doesAwsProfileExist_inaccessible_silent_witness :
    doesAwsProfileExist c6wFs "default" =
      (Except.ok (checkAwsFile c6wFs (configPathOf c6wFs)
          ("[profile " ++ "default" ++ "]")
          "Error checking AWS config file").1,
       ⟨credentialsPathOf c6wFs ::
          (checkAwsFile c6wFs (configPathOf c6wFs)
            ("[profile " ++ "default" ++ "]")
            "Error checking AWS config file").2.accesses,
        (checkAwsFile c6wFs (configPathOf c6wFs)
          ("[profile " ++ "default" ++ "]")
          "Error checking AWS config file").2.reads,
        (checkAwsFile c6wFs (configPathOf c6wFs)
          ("[profile " ++ "default" ++ "]")
          "Error checking AWS config file").2.logs⟩) :=
  doesAwsProfileExist_inaccessible_silent c6wFs "default" (by decide)

/-- Filesystem with only the credentials file present, holding `content`. -/
def credOnlyFs (h content : String) : FsState :=
  ⟨h, fun q =>
    if q == pathJoin (pathJoin h ".aws") "credentials" then
      ⟨true, ReadOutcome.ok content⟩
    else ⟨false, ReadOutcome.err "ENOENT"⟩⟩

/-- Filesystem with only the config file present, holding `content`. -/
def configOnlyFs (h content : String) : FsState :=
  ⟨h, fun q =>
    if q == pathJoin (pathJoin h ".aws") "config" then
      ⟨true, ReadOutcome.ok content⟩
    else ⟨false, ReadOutcome.err "ENOENT"⟩⟩

/-- C9: the marker test is plain substring containment anywhere in the file
text: a credentials file containing `[<p>]` at any position (for instance
embedded as `x[<p>]y`) makes the checker resolve true, and for the empty
profile name the checker resolves true whenever the config file contains
`[profile ]` anywhere (likewise the credentials file and `[]`, the first
part at `p = ""`). -/
theorem doesAwsProfileExist_plain_containment :
    (∀ h p x y : String,
      (doesAwsProfileExist (credOnlyFs h (x ++ ("[" ++ p ++ "]") ++ y)) p).1 =
        Except.ok true) ∧
    (∀ h x y : String,
      (doesAwsProfileExist (configOnlyFs h (x ++ "[profile ]" ++ y)) "").1 =
        Except.ok true) := by
  constructor
  · intro h p x y
    rw [doesAwsProfileExist_eq_body, doesAwsProfileExistBody_fst]
    have hfm : fileHasMarker (credOnlyFs h (x ++ ("[" ++ p ++ "]") ++ y))
        (credentialsPathOf (credOnlyFs h (x ++ ("[" ++ p ++ "]") ++ y)))
        ("[" ++ p ++ "]") = true := by
      unfold fileHasMarker credOnlyFs credentialsPathOf
      simp [strIncludes_self_mid]
    unfold specProfileExists
    rw [hfm]
    rfl
  · intro h x y
    rw [doesAwsProfileExist_eq_body, doesAwsProfileExistBody_fst]
    have hm : ("[profile " ++ "" ++ "]" : String) = "[profile ]" := rfl
    have hfm : fileHasMarker (configOnlyFs h (x ++ "[profile ]" ++ y))
        (configPathOf (configOnlyFs h (x ++ "[profile ]" ++ y)))
        ("[profile " ++ "" ++ "]") = true := by
      rw [hm]
      unfold fileHasMarker configOnlyFs configPathOf
      simp [strIncludes_self_mid]
    unfold specProfileExists
    rw [hfm]
    simp
